import Mathlib

/-!
Verification of the surf-check alert engine: a shallow embedding of the
evaluation-and-deduplication core (src/services/alerts.ts,
src/services/state.ts, the cron tail of scripts/check-forecast.ts and the
rating table of src/types.ts), with theorems settling the frozen claims
about it.

Modelling conventions:
- A JS `Date` is modelled as a pair of its local calendar-day index
  (days since 1970-01-01) and its local hour of day.  `setHours(0,0,0,0)`
  keeps the day index; the rounded millisecond difference divided by
  86 400 000 in `getDaysOut` is exactly the difference of day indices.
- JS numbers used for wave heights are modelled as rationals.
- A rating key at runtime is any string (the TypeScript enum is erased),
  so the `RATING_VALUES` record lookup follows JS property semantics on
  a plain object literal: an own numeric entry, a non-nullish member
  inherited from Object.prototype (for keys such as toString), or
  undefined (`JSLookup`); `??` becomes `nullishCoalesce`, which an
  inherited value passes through, and the rating comparison becomes
  `jsLtLookup`, where a comparison against a NaN operand is false.
- The `alertsSent` record (a JS object used as a string-keyed map with
  insertion order) is an association list; `obj[key] = v` is an upsert
  and `delete` during iteration over a pre-collected key list is a filter.
- JS string `<` on ASCII keys compares code units left to right; it is
  modelled by the structural comparison `jsStrLt`.
- The `toISOString().split('T')[0]` date component is computed by
  `isoDate`, a Gregorian civil-from-days conversion of the day index.
-/

/-- Model of a JS `Date`: local calendar-day index (days since epoch) and
local hour of day (`getHours()`). -/
structure Date where
  day : Int
  hour : Nat
deriving DecidableEq, Repr

/-- Gregorian calendar date (year, month, day) of an epoch-day index,
for day indices at or after the epoch of year -480 (all dates a JS
`Date` in this system can carry). -/
def civilFromDays (z : Int) : Nat × Nat × Nat :=
  let n : Nat := (z + 719468).toNat
  let era := n / 146097
  let doe := n % 146097
  let yoe := (doe - doe / 1460 + doe / 36524 - doe / 146096) / 365
  let y := yoe + era * 400
  let doy := doe - (365 * yoe + yoe / 4 - yoe / 100)
  let mp := (5 * doy + 2) / 153
  let d := doy - (153 * mp + 2) / 5 + 1
  let m := if mp < 10 then mp + 3 else mp - 9
  (if m ≤ 2 then y + 1 else y, m, d)

/-- Two-digit zero padding of a month or day number. -/
def pad2 (n : Nat) : String :=
  if n < 10 then "0" ++ toString n else toString n

/-- The `YYYY-MM-DD` date component of `toISOString()` for a day index. -/
def isoDate (z : Int) : String :=
  let c := civilFromDays z
  toString c.1 ++ "-" ++ pad2 c.2.1 ++ "-" ++ pad2 c.2.2

/-- Full ISO timestamp of a model `Date` (the recorded send time; its
exact value is never inspected by the engine). -/
def isoTimestamp (now : Date) : String :=
  isoDate now.day ++ "T" ++ pad2 now.hour ++ ":00:00.000Z"

/-- Code-unit lexicographic comparison of character lists, as JS `<`
performs on strings. -/
def charListLt : List Char → List Char → Bool
  | [], [] => false
  | [], _ :: _ => true
  | _ :: _, [] => false
  | a :: as, b :: bs => if a < b then true else if b < a then false else charListLt as bs

/-- JS string `<` (ASCII code-unit lexicographic order). -/
def jsStrLt (s t : String) : Bool := charListLt s.data t.data

/-- Splitting of a character list at a separator, as JS `split`. -/
def splitOnChar (sep : Char) : List Char → List (List Char)
  | [] => [[]]
  | x :: xs =>
    match splitOnChar sep xs with
    | [] => [[x]]
    | g :: gs => if x = sep then [] :: g :: gs else (x :: g) :: gs

/- ===== src/types.ts ===== -/

/-- types.ts `SpotConfig`. -/
structure SpotConfig where
  id : String
  name : String
  slug : String
  url : String
deriving DecidableEq, Repr

/-- A JS property-lookup result as the engine can observe it: an own
numeric entry of the rating record, a non-nullish value inherited from
Object.prototype (a function, or the prototype object itself for the
key of the proto accessor), or undefined. -/
inductive JSLookup where
  | num : Nat → JSLookup
  | inherited : JSLookup
  | undef : JSLookup
deriving DecidableEq, Repr

/-- Own property names of Object.prototype (ES2023, as in Node): a bare
object literal inherits all of them, each bound to a non-nullish value
(functions, and the prototype object for the proto accessor). -/
def objectPrototypeMember (key : String) : Bool :=
  key == "constructor" || key == "hasOwnProperty" || key == "isPrototypeOf" ||
    key == "propertyIsEnumerable" || key == "toLocaleString" || key == "toString" ||
    key == "valueOf" || key == "__proto__" || key == "__defineGetter__" ||
    key == "__defineSetter__" || key == "__lookupGetter__" || key == "__lookupSetter__"

/-- types.ts `RATING_VALUES`: the record lookup `RATING_VALUES[key]` on
the plain object literal.  An own property yields its number; a key
naming an Object.prototype member yields the inherited non-nullish
value; any other key yields undefined. -/
def RATING_VALUES : String → JSLookup
  | "FLAT" => JSLookup.num 0
  | "VERY_POOR" => JSLookup.num 0
  | "POOR" => JSLookup.num 1
  | "POOR_TO_FAIR" => JSLookup.num 1
  | "FAIR" => JSLookup.num 2
  | "FAIR_TO_GOOD" => JSLookup.num 3
  | "GOOD" => JSLookup.num 4
  | "GOOD_TO_EPIC" => JSLookup.num 5
  | "EPIC" => JSLookup.num 5
  | key => if objectPrototypeMember key then JSLookup.inherited else JSLookup.undef

/-- JS ?? with a numeric fallback: only undefined (nullish) is
replaced; an inherited function or object is not nullish and passes
through. -/
def nullishCoalesce (v : JSLookup) (fallback : Nat) : JSLookup :=
  match v with
  | JSLookup.undef => JSLookup.num fallback
  | v => v

/-- JS < on the engine's rating operands.  Two numbers compare
numerically.  An inherited function or object converts via ToPrimitive
to a non-numeric string and then, against a numeric operand, to NaN,
and every comparison with a NaN operand is false; undefined likewise
converts to NaN.  The right operand in the engine is always one of the
three numeric tier entries (`minRatingValue_num`), so the
string-against-string pairing of JS < never occurs here. -/
def jsLtLookup (a b : JSLookup) : Bool :=
  match a, b with
  | JSLookup.num n, JSLookup.num m => decide (n < m)
  | _, _ => false

/-- The table rank of a rating key: its own numeric entry when there is
one, else the rank 0 the rating scale assigns to unrecognized keys. -/
def ratingRank (key : String) : Nat :=
  match RATING_VALUES key with
  | JSLookup.num n => n
  | _ => 0

/-- The `wave` field of types.ts `DayForecast`. -/
structure Wave where
  min : ℚ
  max : ℚ
  humanRelation : String
deriving DecidableEq, Repr

/-- The `rating` field of types.ts `DayForecast` (the numeric `value`
field is never read by the engine and is omitted). -/
structure Rating where
  key : String
  display : String
deriving DecidableEq, Repr

/-- types.ts `DayForecast`, restricted to the fields the evaluation and
state core reads (`dateString`, `dayOfWeek`, `spot`, `wind` and `swells`
feed only the display formatters, which are out of the claims' scope). -/
structure DayForecast where
  date : Date
  wave : Wave
  rating : Rating
  isWeekend : Bool
deriving DecidableEq, Repr

/-- types.ts `QuietHours`. -/
structure QuietHours where
  enabled : Bool
  start : Nat
  «end» : Nat
deriving DecidableEq, Repr

/-- types.ts `AlertConfig`. -/
structure AlertConfig where
  waveMin : ℚ
  waveMax : ℚ
  forecastDays : Nat
  quietHours : QuietHours
deriving DecidableEq, Repr

/-- types.ts `DEFAULT_ALERT_CONFIG`. -/
def DEFAULT_ALERT_CONFIG : AlertConfig :=
  { waveMin := 2,
    waveMax := 6,
    forecastDays := 7,
    quietHours := { enabled := true, start := 22, «end» := 6 } }

/-- types.ts `AlertDecision`. -/
structure AlertDecision where
  shouldAlert : Bool
  forecast : DayForecast
  reason : String
deriving DecidableEq, Repr

/-- types.ts `Alert`. -/
structure Alert where
  spot : SpotConfig
  forecasts : List DayForecast
  generatedAt : Date
deriving DecidableEq, Repr

/- ===== src/services/alerts.ts ===== -/

/-- alerts.ts `getDaysOut`: both dates are truncated to local midnight
and the rounded millisecond difference is divided by one day, which is
the difference of calendar-day indices. -/
def getDaysOut (forecastDate : Date) (now : Date) : Int :=
  forecastDate.day - now.day

/-- alerts.ts `getMinRatingForDaysOut`. -/
def getMinRatingForDaysOut (daysOut : Int) : String :=
  if daysOut ≥ 4 then "FAIR_TO_GOOD"
  else if daysOut ≥ 1 then "FAIR"
  else "GOOD"

/-- alerts.ts `isPastDawnPatrol`: dawn patrol cutoff, 8am. -/
def isPastDawnPatrol (now : Date) : Bool :=
  decide (now.hour ≥ 8)

/-- alerts.ts `isQuietHours`. -/
def isQuietHours (quietHours : QuietHours) (now : Date) : Bool :=
  if quietHours.enabled = false then false
  else
    let hour := now.hour
    if quietHours.start > quietHours.«end» then
      decide (hour ≥ quietHours.start) || decide (hour < quietHours.«end»)
    else
      decide (hour ≥ quietHours.start) && decide (hour < quietHours.«end»)

/-- JS `Math.round` on a rational (half rounds up). -/
def jsRound (q : ℚ) : Int := Int.floor (q + 1 / 2)

/-- The "too small" reason string of alerts.ts `evaluateForecast`. -/
def tooSmallReason (forecast : DayForecast) (config : AlertConfig) : String :=
  s!"Wave height too small ({jsRound forecast.wave.max}ft < {config.waveMin}ft)"

/-- The "too big" reason string of alerts.ts `evaluateForecast`. -/
def tooBigReason (forecast : DayForecast) (config : AlertConfig) : String :=
  s!"Wave height too big ({jsRound forecast.wave.min}ft > {config.waveMax}ft)"

/-- The lowercased, underscore-to-hyphen display form of a tier key,
as the replace-and-toLowerCase chain computes it (a per-character
replacement, since the pattern is the single character underscore). -/
def minRatingDisplay (minRating : String) : String :=
  String.mk (minRating.data.map (fun ch =>
    Char.toLower (if ch = ('_') then ('-') else ch)))

/-- The rating-below reason string of alerts.ts `evaluateForecast`. -/
def ratingBelowReason (forecast : DayForecast) (minRating : String) (daysOut : Int) : String :=
  s!"Rating {forecast.rating.display} below {minRatingDisplay minRating} ({daysOut} days out)"

/-- The success reason string of alerts.ts `evaluateForecast`. -/
def successReason (forecast : DayForecast) (daysOut : Int) : String :=
  let weekendNote := if forecast.isWeekend then " (weekend!)" else ""
  let plural := if daysOut = 1 then "" else "s"
  s!"{forecast.rating.display} conditions{weekendNote} - {daysOut} day{plural} out"

/-- alerts.ts `evaluateForecast`. -/
def evaluateForecast (forecast : DayForecast) (config : AlertConfig) (now : Date) : AlertDecision :=
  let daysOut := getDaysOut forecast.date now
  if daysOut < 0 then
    { shouldAlert := false, forecast := forecast, reason := "Date is in the past" }
  else if daysOut = 0 ∧ isPastDawnPatrol now = true then
    { shouldAlert := false, forecast := forecast,
      reason := "Too late for same-day alert (past 8am)" }
  else if forecast.wave.max < config.waveMin then
    { shouldAlert := false, forecast := forecast, reason := tooSmallReason forecast config }
  else if forecast.wave.min > config.waveMax then
    { shouldAlert := false, forecast := forecast, reason := tooBigReason forecast config }
  else
    let minRating := getMinRatingForDaysOut daysOut
    let ratingValue := nullishCoalesce (RATING_VALUES forecast.rating.key) 0
    let minRatingValue := nullishCoalesce (RATING_VALUES minRating) 2
    if jsLtLookup ratingValue minRatingValue = true then
      { shouldAlert := false, forecast := forecast,
        reason := ratingBelowReason forecast minRating daysOut }
    else
      { shouldAlert := true, forecast := forecast,
        reason := successReason forecast daysOut }

/-- The branch of the `evaluateForecast` cascade that fires, named. -/
inductive EvalGate where
  | past
  | dawnPatrol
  | tooSmall
  | tooBig
  | ratingBelow
  | alert
deriving DecidableEq, Repr

/-- Which branch of the `evaluateForecast` cascade fires: the same
conditions in the same order as the source. -/
def evalGate (forecast : DayForecast) (config : AlertConfig) (now : Date) : EvalGate :=
  let daysOut := getDaysOut forecast.date now
  if daysOut < 0 then EvalGate.past
  else if daysOut = 0 ∧ isPastDawnPatrol now = true then EvalGate.dawnPatrol
  else if forecast.wave.max < config.waveMin then EvalGate.tooSmall
  else if forecast.wave.min > config.waveMax then EvalGate.tooBig
  else if jsLtLookup (nullishCoalesce (RATING_VALUES forecast.rating.key) 0)
      (nullishCoalesce (RATING_VALUES (getMinRatingForDaysOut daysOut)) 2) = true then
    EvalGate.ratingBelow
  else EvalGate.alert

/-- The decision record each branch of `evaluateForecast` returns. -/
def decisionOfGate (g : EvalGate) (forecast : DayForecast) (config : AlertConfig)
    (now : Date) : AlertDecision :=
  let daysOut := getDaysOut forecast.date now
  match g with
  | EvalGate.past =>
    { shouldAlert := false, forecast := forecast, reason := "Date is in the past" }
  | EvalGate.dawnPatrol =>
    { shouldAlert := false, forecast := forecast,
      reason := "Too late for same-day alert (past 8am)" }
  | EvalGate.tooSmall =>
    { shouldAlert := false, forecast := forecast, reason := tooSmallReason forecast config }
  | EvalGate.tooBig =>
    { shouldAlert := false, forecast := forecast, reason := tooBigReason forecast config }
  | EvalGate.ratingBelow =>
    { shouldAlert := false, forecast := forecast,
      reason := ratingBelowReason forecast (getMinRatingForDaysOut daysOut) daysOut }
  | EvalGate.alert =>
    { shouldAlert := true, forecast := forecast, reason := successReason forecast daysOut }

/-- alerts.ts `shouldSuppressNotification` result shape. -/
structure SuppressResult where
  suppress : Bool
  reason : Option String
deriving DecidableEq, Repr

/-- alerts.ts `formatHour`. -/
def formatHour (hour : Nat) : String :=
  let ampm := if hour ≥ 12 then "pm" else "am"
  let displayHour := if hour % 12 = 0 then 12 else hour % 12
  s!"{displayHour}{ampm}"

/-- alerts.ts `shouldSuppressNotification`. -/
def shouldSuppressNotification (config : AlertConfig) (now : Date) : SuppressResult :=
  if isQuietHours config.quietHours now = true then
    let hour := now.hour
    let ampm := if hour ≥ 12 then "pm" else "am"
    let displayHour := if hour % 12 = 0 then 12 else hour % 12
    let startStr := formatHour config.quietHours.start
    let endStr := formatHour config.quietHours.«end»
    { suppress := true,
      reason := some (s!"Quiet hours active ({displayHour}{ampm} is between " ++
        s!"{startStr} and {endStr})") }
  else { suppress := false, reason := none }

/- ===== src/services/state.ts ===== -/

/-- state.ts `AlertState`: `alertsSent` is a JS object used as a map
from `spotId:YYYY-MM-DD` keys to ISO timestamps, kept in insertion
order, hence an association list. -/
structure AlertState where
  lastCheck : String
  alertsSent : List (String × String)
deriving DecidableEq, Repr

/-- JS `obj[key] = value` on a string-keyed object: replace in place if
the key is present, append otherwise. -/
def setKey (m : List (String × String)) (k v : String) : List (String × String) :=
  if m.any (fun kv => kv.1 == k) then
    m.map (fun kv => if kv.1 == k then (k, v) else kv)
  else m ++ [(k, v)]

/-- state.ts `getAlertKey`. -/
def getAlertKey (spotId : String) (forecastDate : Date) : String :=
  spotId ++ ":" ++ isoDate forecastDate.day

/-- state.ts `wasAlertSent`: `key in state.alertsSent`. -/
def wasAlertSent (state : AlertState) (spotId : String) (forecastDate : Date) : Bool :=
  state.alertsSent.any (fun kv => kv.1 == getAlertKey spotId forecastDate)

/-- state.ts `markAlertSent`; the recorded timestamp `new Date().toISOString()`
is that of the ambient clock `now`. -/
def markAlertSent (state : AlertState) (spotId : String) (forecastDate : Date)
    (now : Date) : AlertState :=
  { state with alertsSent := (setKey state.alertsSent
      (getAlertKey spotId forecastDate) (isoTimestamp now)) }

/-- state.ts `filterNewAlerts`. -/
def filterNewAlerts (alert : Alert) (state : AlertState) : Option Alert :=
  let newForecasts := alert.forecasts.filter
    (fun f => !(wasAlertSent state alert.spot.id f.date))
  if newForecasts.length = 0 then none
  else some { alert with forecasts := newForecasts }

/-- The second segment of the key split at the colon, when it exists
(JS yields undefined, which compares as never-less, when the key has no
separator). -/
def keyDatePart (key : String) : Option String :=
  ((splitOnChar (':') key.data).map (fun l => String.mk l)).get? 1

/-- state.ts `cleanupOldAlerts`: the cutoff is the date component of
`now` minus 7 days; an entry whose key's date component is lexically
below the cutoff is deleted.  The ambient `new Date()` is `now`. -/
def cleanupOldAlerts (now : Date) (state : AlertState) : AlertState :=
  let cutoffStr := isoDate (now.day - 7)
  { state with alertsSent := state.alertsSent.filter (fun kv =>
      match keyDatePart kv.1 with
      | some dateStr => !(jsStrLt dateStr cutoffStr)
      | none => true) }

/-- state.ts `updateStateAfterCheck`: stamps `lastCheck`, marks every
forecast of every sent alert, prunes old entries, then persists (the
persisted value is the returned state; the disk write itself is I/O
outside the model). -/
def updateStateAfterCheck (now : Date) (state : AlertState)
    (sentAlerts : List Alert) : AlertState :=
  let state1 := { state with lastCheck := isoTimestamp now }
  let state2 := sentAlerts.foldl
    (fun st alert => alert.forecasts.foldl
      (fun st2 forecast => markAlertSent st2 alert.spot.id forecast.date now) st) state1
  cleanupOldAlerts now state2

/- ===== scripts/check-forecast.ts, cron tail of main ===== -/

/-- Outcome of one cron-mode check cycle: the alerts printed through
`formatMultiSpotSummary` (`none` when nothing is written to stdout), the
resulting state, and whether `updateStateAfterCheck` persisted it. -/
structure CronResult where
  emitted : Option (List Alert)
  state : AlertState
  persisted : Bool
deriving DecidableEq, Repr

/-- The cron-mode tail of `main` in scripts/check-forecast.ts: unless
`--force`, a quiet-hours suppression returns before any output or state
update; otherwise new alerts (if any) are printed and recorded. -/
def cronCheckCycle (config : AlertConfig) (now : Date) (forceMode : Bool)
    (state : AlertState) (newAlerts : List Alert) : CronResult :=
  if forceMode = false ∧ (shouldSuppressNotification config now).suppress = true then
    { emitted := none, state := state, persisted := false }
  else if newAlerts.length > 0 then
    { emitted := some newAlerts,
      state := updateStateAfterCheck now state newAlerts,
      persisted := true }
  else
    { emitted := none, state := state, persisted := false }

/- ===== Helper lemmas ===== -/

/-- `evaluateForecast` is the decision record of the branch `evalGate`
selects: the two definitions share conditions, order and payloads. -/
theorem evaluateForecast_eq_decisionOfGate (forecast : DayForecast) (config : AlertConfig)
    (now : Date) :
    evaluateForecast forecast config now =
      decisionOfGate (evalGate forecast config now) forecast config now := by
  simp only [evaluateForecast, evalGate, decisionOfGate]
  split_ifs <;> rfl

/-- The tier minimum lookup is always an own numeric entry of the
rating record: the `?? 2` default never fires and no prototype member
is consulted, so the right operand of the rating comparison is the
number `ratingRank (getMinRatingForDaysOut daysOut)`. -/
theorem minRatingValue_num (daysOut : Int) :
    nullishCoalesce (RATING_VALUES (getMinRatingForDaysOut daysOut)) 2 =
      JSLookup.num (ratingRank (getMinRatingForDaysOut daysOut)) := by
  unfold getMinRatingForDaysOut
  split_ifs <;> decide

/-- Every tier minimum has a strictly positive rank. -/
theorem minRatingRank_pos (daysOut : Int) :
    0 < ratingRank (getMinRatingForDaysOut daysOut) := by
  unfold getMinRatingForDaysOut
  split_ifs <;> decide

/-- `wasAlertSent` is membership of the forecast's key among the keys of
the store. -/
theorem wasAlertSent_mem_keys (state : AlertState) (spotId : String) (forecastDate : Date) :
    wasAlertSent state spotId forecastDate = true ↔
      getAlertKey spotId forecastDate ∈ state.alertsSent.map Prod.fst := by
  simp only [wasAlertSent, List.any_eq_true, List.mem_map, beq_iff_eq]

/-- The keys present after a JS upsert are the old keys together with
the upserted key. -/
theorem mem_keys_setKey (m : List (String × String)) (k v k' : String) :
    k' ∈ (setKey m k v).map Prod.fst ↔ k' ∈ m.map Prod.fst ∨ k' = k := by
  unfold setKey
  by_cases h : m.any (fun kv => kv.1 == k) = true
  · rw [if_pos h]
    simp only [List.map_map, List.mem_map, Function.comp]
    constructor
    · rintro ⟨kv, hkv, hfst⟩
      by_cases hk : kv.1 = k
      · right
        rw [← hfst]
        simp [hk]
      · left
        refine ⟨kv, hkv, ?_⟩
        rw [← hfst]
        simp [hk]
    · rintro (⟨kv, hkv, rfl⟩ | rfl)
      · by_cases hk : kv.1 = k
        · exact ⟨kv, hkv, by simp [hk]⟩
        · exact ⟨kv, hkv, by simp [hk]⟩
      · obtain ⟨kv, hkv, hbeq⟩ := List.any_eq_true.mp h
        exact ⟨kv, hkv, by simp [hbeq]⟩
  · rw [if_neg h]
    simp [List.mem_map]

/-- Folding `markAlertSent` over a forecast list never loses a key. -/
theorem mem_keys_foldl_mark (forecasts : List DayForecast) (st : AlertState) (spotId : String)
    (now : Date) (k : String) (h : k ∈ st.alertsSent.map Prod.fst) :
    k ∈ ((forecasts.foldl
        (fun st2 f => markAlertSent st2 spotId f.date now) st).alertsSent.map Prod.fst) := by
  induction forecasts generalizing st with
  | nil => exact h
  | cons f fs ih =>
    simp only [List.foldl_cons]
    apply ih
    simp only [markAlertSent]
    exact (mem_keys_setKey _ _ _ _).mpr (Or.inl h)

/-- After folding `markAlertSent` over a forecast list, every forecast's
key is present. -/
theorem key_mem_keys_foldl_mark (forecasts : List DayForecast) (st : AlertState)
    (spotId : String) (now : Date) (f : DayForecast) (hf : f ∈ forecasts) :
    getAlertKey spotId f.date ∈ ((forecasts.foldl
        (fun st2 g => markAlertSent st2 spotId g.date now) st).alertsSent.map Prod.fst) := by
  induction forecasts generalizing st with
  | nil => cases hf
  | cons g gs ih =>
    simp only [List.foldl_cons]
    rcases List.mem_cons.mp hf with rfl | hf'
    · apply mem_keys_foldl_mark
      simp only [markAlertSent]
      exact (mem_keys_setKey _ _ _ _).mpr (Or.inr rfl)
    · exact ih _ hf'

/-- The cleanup filter keeps an entry exactly when no date component of
its key is lexically below the cutoff. -/
theorem cleanup_pred_iff (k : String) (c : String) :
    ((match keyDatePart k with
      | some dateStr => !(jsStrLt dateStr c)
      | none => true) = true) ↔ (∀ d, keyDatePart k = some d → jsStrLt d c = false) := by
  cases hkd : keyDatePart k <;> simp [hkd]

/-- Membership in the store after `cleanupOldAlerts`. -/
theorem mem_cleanup_iff (now : Date) (state : AlertState) (kv : String × String) :
    kv ∈ (cleanupOldAlerts now state).alertsSent ↔
      (kv ∈ state.alertsSent ∧
        ∀ d, keyDatePart kv.1 = some d → jsStrLt d (isoDate (now.day - 7)) = false) := by
  simp only [cleanupOldAlerts, List.mem_filter]
  exact and_congr_right fun _ => cleanup_pred_iff kv.1 (isoDate (now.day - 7))

/-- Key membership in the store after `cleanupOldAlerts`. -/
theorem mem_keys_cleanup (now : Date) (state : AlertState) (k : String) :
    k ∈ (cleanupOldAlerts now state).alertsSent.map Prod.fst ↔
      (k ∈ state.alertsSent.map Prod.fst ∧
        ∀ d, keyDatePart k = some d → jsStrLt d (isoDate (now.day - 7)) = false) := by
  simp only [List.mem_map]
  constructor
  · rintro ⟨kv, hkv, rfl⟩
    obtain ⟨h1, h2⟩ := (mem_cleanup_iff now state kv).mp hkv
    exact ⟨⟨kv, h1, rfl⟩, h2⟩
  · rintro ⟨⟨kv, hkv, rfl⟩, h2⟩
    exact ⟨kv, (mem_cleanup_iff now state kv).mpr ⟨hkv, h2⟩, rfl⟩

/- ===== Claims ===== -/

/-- C1: for every forecast day with daysOut ≥ 0 that passes the
dawn-patrol gate and the wave-range gate, `evaluateForecast` returns
shouldAlert = true iff the rank of the day's rating is ≥ the rank of the
tier minimum rating, the tier minimum being FAIR_TO_GOOD when
daysOut ≥ 4, FAIR when 1 ≤ daysOut ≤ 3, and GOOD when daysOut = 0.
The rating is drawn from the rating scale (or at least is not a key
that collides with an inherited Object.prototype member), per the
data model's closed RatingKey enumeration. -/
theorem claim1_tiered_min_rating (forecast : DayForecast) (config : AlertConfig) (now : Date)
    (h0 : 0 ≤ getDaysOut forecast.date now)
    (h1 : ¬(getDaysOut forecast.date now = 0 ∧ isPastDawnPatrol now = true))
    (h2 : ¬(forecast.wave.max < config.waveMin))
    (h3 : ¬(forecast.wave.min > config.waveMax))
    (hkey : RATING_VALUES forecast.rating.key ≠ JSLookup.inherited) :
    ((evaluateForecast forecast config now).shouldAlert = true ↔
      ratingRank (getMinRatingForDaysOut (getDaysOut forecast.date now)) ≤
        ratingRank forecast.rating.key) ∧
    (4 ≤ getDaysOut forecast.date now →
      getMinRatingForDaysOut (getDaysOut forecast.date now) = "FAIR_TO_GOOD") ∧
    (1 ≤ getDaysOut forecast.date now ∧ getDaysOut forecast.date now ≤ 3 →
      getMinRatingForDaysOut (getDaysOut forecast.date now) = "FAIR") ∧
    (getDaysOut forecast.date now = 0 →
      getMinRatingForDaysOut (getDaysOut forecast.date now) = "GOOD") := by
  refine ⟨?_, ?_, ?_, ?_⟩
  · simp only [evaluateForecast]
    rw [if_neg (by omega : ¬ getDaysOut forecast.date now < 0), if_neg h1, if_neg h2, if_neg h3,
      minRatingValue_num]
    rcases hk : RATING_VALUES forecast.rating.key with n | _ | _
    · have hr : ratingRank forecast.rating.key = n := by
        simp [ratingRank, hk]
      rw [hr]
      simp only [nullishCoalesce, jsLtLookup]
      split_ifs with h
      · simp only [decide_eq_true_eq] at h
        simp
        omega
      · simp only [decide_eq_true_eq] at h
        simp
        omega
    · exact absurd hk hkey
    · have hr : ratingRank forecast.rating.key = 0 := by
        simp [ratingRank, hk]
      have hpos := minRatingRank_pos (getDaysOut forecast.date now)
      rw [hr]
      simp only [nullishCoalesce, jsLtLookup]
      split_ifs with h
      · simp only [decide_eq_true_eq] at h
        simp
        omega
      · simp only [decide_eq_true_eq] at h
        simp
        omega
  · intro h
    unfold getMinRatingForDaysOut
    rw [if_pos (by omega : getDaysOut forecast.date now ≥ 4)]
  · rintro ⟨ha, hb⟩
    unfold getMinRatingForDaysOut
    rw [if_neg (by omega : ¬ getDaysOut forecast.date now ≥ 4),
      if_pos (by omega : getDaysOut forecast.date now ≥ 1)]
  · intro h
    unfold getMinRatingForDaysOut
    rw [if_neg (by omega : ¬ getDaysOut forecast.date now ≥ 4),
      if_neg (by omega : ¬ getDaysOut forecast.date now ≥ 1)]

/-- C1 witness: two days out, rating FAIR (rank 2, exactly the 1-3 day
tier minimum), waves inside the default range, evaluated at 10:00. -/
theorem claim1_tiered_min_rating_witness :
    (evaluateForecast ⟨⟨20739, 0⟩, ⟨2, 4, "ok"⟩, ⟨"FAIR", "Fair"⟩, false⟩
        DEFAULT_ALERT_CONFIG ⟨20737, 10⟩).shouldAlert = true :=
  ((claim1_tiered_min_rating _ _ _ (by decide) (by decide) (by decide) (by decide)
      (by decide)).1).mpr
    (by decide)

/-- C2 counterexample: d1 = 4, d2 = 2 satisfy d1 ≥ d2 ≥ 0, yet the rank
of the ≥ 4-day tier minimum (FAIR_TO_GOOD, rank 3) is NOT ≤ the rank of
the 1-3-day tier minimum (FAIR, rank 2): the requirement is not
monotone from the far tier to the middle tier. -/
theorem claim2_tier_monotonicity_counterexample :
    ((2 : Int) ≤ 4 ∧ (0 : Int) ≤ 2) ∧
      ¬ (ratingRank (getMinRatingForDaysOut 4) ≤ ratingRank (getMinRatingForDaysOut 2)) := by
  decide

/-- C2 amended: the minimum required rating rank is non-decreasing as
daysOut decreases, except from the ≥ 4-day tier (rank 3) down into the
1-3-day tier (rank 2): for all d1 ≥ d2 ≥ 0 outside that tier pair,
rank(getMinRatingForDaysOut d1) ≤ rank(getMinRatingForDaysOut d2). -/
theorem claim2_tier_monotonicity_amended (d1 d2 : Int) (h21 : d2 ≤ d1) (h20 : 0 ≤ d2)
    (hx : ¬(4 ≤ d1 ∧ 1 ≤ d2 ∧ d2 ≤ 3)) :
    ratingRank (getMinRatingForDaysOut d1) ≤ ratingRank (getMinRatingForDaysOut d2) := by
  unfold getMinRatingForDaysOut
  split_ifs <;> first | decide | (exfalso; omega)

/-- C2 amended witness: within the mid tier, from 2 days out to 1 day
out the required rank does not decrease. -/
theorem claim2_tier_monotonicity_amended_witness :
    ratingRank (getMinRatingForDaysOut 2) ≤ ratingRank (getMinRatingForDaysOut 1) :=
  claim2_tier_monotonicity_amended 2 1 (by decide) (by decide) (by decide)

/-- C5: a forecast day dated before today (daysOut < 0) never alerts,
regardless of config, rating and wave heights; a day-of forecast
(daysOut = 0) evaluated at hour ≥ 8 never alerts; and the dawn-patrol
cutoff is the fixed hour 8. -/
theorem claim5_past_and_dawn_gate (forecast : DayForecast) (config : AlertConfig) (now : Date) :
    (getDaysOut forecast.date now < 0 →
      (evaluateForecast forecast config now).shouldAlert = false) ∧
    (getDaysOut forecast.date now = 0 → 8 ≤ now.hour →
      (evaluateForecast forecast config now).shouldAlert = false) ∧
    (isPastDawnPatrol now = true ↔ 8 ≤ now.hour) := by
  refine ⟨?_, ?_, ?_⟩
  · intro h
    simp only [evaluateForecast]
    rw [if_pos h]
  · intro h0 h8
    simp only [evaluateForecast]
    rw [if_neg (by omega : ¬ getDaysOut forecast.date now < 0),
      if_pos ⟨h0, by simp [isPastDawnPatrol, h8]⟩]
  · simp [isPastDawnPatrol]

/-- C5 witness: a past day with EPIC rating does not alert, and a
same-day EPIC forecast evaluated at 09:00 does not alert. -/
theorem claim5_past_and_dawn_gate_witness :
    (evaluateForecast ⟨⟨20730, 0⟩, ⟨2, 4, "ok"⟩, ⟨"EPIC", "Epic"⟩, false⟩
        DEFAULT_ALERT_CONFIG ⟨20737, 5⟩).shouldAlert = false ∧
    (evaluateForecast ⟨⟨20737, 0⟩, ⟨2, 4, "ok"⟩, ⟨"EPIC", "Epic"⟩, false⟩
        DEFAULT_ALERT_CONFIG ⟨20737, 9⟩).shouldAlert = false :=
  ⟨(claim5_past_and_dawn_gate _ _ _).1 (by decide),
    (claim5_past_and_dawn_gate _ _ _).2.1 (by decide) (by decide)⟩

/-- C7: `isQuietHours` is false whenever disabled; enabled with
start > end it is true iff hour ≥ start or hour < end; enabled with
start ≤ end it is true iff start ≤ hour < end; and with start = end the
same-day branch makes the window zero-width, so it is false for every
hour. -/
theorem claim7_quiet_hours_semantics (q : QuietHours) (now : Date) :
    (q.enabled = false → isQuietHours q now = false) ∧
    (q.enabled = true → q.«end» < q.start →
      (isQuietHours q now = true ↔ (q.start ≤ now.hour ∨ now.hour < q.«end»))) ∧
    (q.enabled = true → q.start ≤ q.«end» →
      (isQuietHours q now = true ↔ (q.start ≤ now.hour ∧ now.hour < q.«end»))) ∧
    (q.start = q.«end» → isQuietHours q now = false) := by
  refine ⟨?_, ?_, ?_, ?_⟩
  · intro h
    simp [isQuietHours, h]
  · intro he hlt
    simp only [isQuietHours]
    rw [if_neg (by simp [he]), if_pos (by omega : q.start > q.«end»)]
    simp
  · intro he hle
    simp only [isQuietHours]
    rw [if_neg (by simp [he]), if_neg (by omega : ¬ q.start > q.«end»)]
    simp
  · intro heq
    simp only [isQuietHours]
    split_ifs with h1 h2
    · rfl
    · omega
    · simp
      omega

/-- C7 witness: the default overnight window 22-6 suppresses at 23:00,
and a disabled window never suppresses. -/
theorem claim7_quiet_hours_semantics_witness :
    isQuietHours ⟨true, 22, 6⟩ ⟨20737, 23⟩ = true ∧
      isQuietHours ⟨false, 22, 6⟩ ⟨20737, 23⟩ = false :=
  ⟨((claim7_quiet_hours_semantics ⟨true, 22, 6⟩ ⟨20737, 23⟩).2.1 rfl (by decide)).mpr
      (Or.inl (by decide)),
    (claim7_quiet_hours_semantics ⟨false, 22, 6⟩ ⟨20737, 23⟩).1 rfl⟩

/-- C8: code bug.  The rating scale's design (and the code's own `?? 0`
idiom) intend every unrecognized rating key to read as rank 0 and never
alert, but the record lookup on a plain object literal consults the
prototype chain: the unrecognized key "toString" yields the inherited
non-nullish Object.prototype function, `?? 0` does not fire, the rating
comparison coerces it to NaN and is false, and an otherwise-passing day
two days out ALERTS -- the opposite of the claimed fail-safe.  For
unrecognized keys that are not Object.prototype members the lookup is
undefined and the intended rank-0 no-alert path does hold. -/
theorem claim8_unknown_rating_fail_safe_bug :
    RATING_VALUES ("toString") = JSLookup.inherited ∧
    (evaluateForecast ⟨⟨20739, 0⟩, ⟨2, 4, "ok"⟩, ⟨"toString", "toString"⟩, false⟩
        DEFAULT_ALERT_CONFIG ⟨20737, 10⟩).shouldAlert = true ∧
    RATING_VALUES ("MYSTO") = JSLookup.undef ∧
    (evaluateForecast ⟨⟨20739, 0⟩, ⟨2, 4, "ok"⟩, ⟨"MYSTO", "Mysto"⟩, false⟩
        DEFAULT_ALERT_CONFIG ⟨20737, 10⟩).shouldAlert = false := by
  decide

/-- C6: the wave gate of `evaluateForecast` is an interval-overlap test:
once a day passes the past-date and dawn-patrol gates (and with the data
model's waveMin ≤ waveMax invariants), the "too small" rejection fires
iff wave.max < config.waveMin, the "too big" rejection fires iff
wave.min > config.waveMax, both are no-alert decisions, and any day
whose wave interval overlaps the config interval even partially reaches
the rating comparison. -/
theorem claim6_wave_overlap_gate (forecast : DayForecast) (config : AlertConfig) (now : Date)
    (h0 : 0 ≤ getDaysOut forecast.date now)
    (h1 : ¬(getDaysOut forecast.date now = 0 ∧ isPastDawnPatrol now = true))
    (hw : forecast.wave.min ≤ forecast.wave.max)
    (hc : config.waveMin ≤ config.waveMax) :
    evaluateForecast forecast config now =
      decisionOfGate (evalGate forecast config now) forecast config now ∧
    (evalGate forecast config now = EvalGate.tooSmall ↔
      forecast.wave.max < config.waveMin) ∧
    (evalGate forecast config now = EvalGate.tooBig ↔
      forecast.wave.min > config.waveMax) ∧
    ((decisionOfGate EvalGate.tooSmall forecast config now).shouldAlert = false ∧
      (decisionOfGate EvalGate.tooBig forecast config now).shouldAlert = false) ∧
    (¬(forecast.wave.max < config.waveMin) → ¬(forecast.wave.min > config.waveMax) →
      (evalGate forecast config now = EvalGate.ratingBelow ∨
        evalGate forecast config now = EvalGate.alert)) := by
  refine ⟨evaluateForecast_eq_decisionOfGate _ _ _, ?_, ?_, ⟨rfl, rfl⟩, ?_⟩
  · simp only [evalGate]
    rw [if_neg (by omega : ¬ getDaysOut forecast.date now < 0), if_neg h1]
    split_ifs with h2 h3 h4 <;> simp_all
  · simp only [evalGate]
    rw [if_neg (by omega : ¬ getDaysOut forecast.date now < 0), if_neg h1]
    split_ifs with h2 h3 h4
    · simp
      linarith
    · simp
      exact h3
    · simp
      exact not_lt.mp h3
    · simp
      exact not_lt.mp h3
  · intro hns hnb
    simp only [evalGate]
    rw [if_neg (by omega : ¬ getDaysOut forecast.date now < 0), if_neg h1,
      if_neg hns, if_neg hnb]
    split_ifs <;> simp

/-- C6 witness: waves 1-3 ft overlap the default 2-6 ft range only
partially, yet the day reaches the rating comparison (here stopping at
the rating gate, rating POOR). -/
theorem claim6_wave_overlap_gate_witness :
    evalGate ⟨⟨20739, 0⟩, ⟨1, 3, "ok"⟩, ⟨"POOR", "Poor"⟩, false⟩
        DEFAULT_ALERT_CONFIG ⟨20737, 10⟩ = EvalGate.ratingBelow ∨
      evalGate ⟨⟨20739, 0⟩, ⟨1, 3, "ok"⟩, ⟨"POOR", "Poor"⟩, false⟩
        DEFAULT_ALERT_CONFIG ⟨20737, 10⟩ = EvalGate.alert :=
  (claim6_wave_overlap_gate _ _ _ (by decide) (by decide) (by decide)
    (by decide)).2.2.2.2 (by decide) (by decide)

/-- C4: in cron mode without the force flag, a quiet-hours suppression
ends the cycle with no output, an unchanged state (no new alertsSent
entries) and nothing persisted, so the withheld alerts stay eligible. -/
theorem claim4_quiet_suppression_frame (config : AlertConfig) (now : Date)
    (state : AlertState) (newAlerts : List Alert)
    (h : (shouldSuppressNotification config now).suppress = true) :
    cronCheckCycle config now false state newAlerts =
      { emitted := none, state := state, persisted := false } := by
  simp [cronCheckCycle, h]

/-- C4 witness: at 23:00 under the default config the cycle is fully
suppressed. -/
theorem claim4_quiet_suppression_frame_witness :
    (shouldSuppressNotification DEFAULT_ALERT_CONFIG ⟨20737, 23⟩).suppress = true ∧
      cronCheckCycle DEFAULT_ALERT_CONFIG ⟨20737, 23⟩ false ⟨"", []⟩
          [⟨⟨"belmar", "Belmar", "belmar", "u"⟩,
            [⟨⟨20739, 0⟩, ⟨2, 4, "ok"⟩, ⟨"FAIR", "Fair"⟩, false⟩], ⟨20737, 23⟩⟩] =
        { emitted := none, state := ⟨"", []⟩, persisted := false } :=
  ⟨by decide, claim4_quiet_suppression_frame _ _ _ _ (by decide)⟩

/-- C3 counterexample: for an alert whose only forecast day is 8 days in
the past, `updateStateAfterCheck` marks it and then immediately prunes
the fresh record (cleanup runs after marking, and the key's date is
older than the 7-day cutoff), so a second `filterNewAlerts` against the
updated state returns the alert again instead of null. -/
theorem claim3_dedup_counterexample :
    filterNewAlerts
        ⟨⟨"belmar", "Belmar (16th Ave)", "16th-ave-belmar", "u"⟩,
          [⟨⟨20729, 0⟩, ⟨2, 4, "ok"⟩, ⟨"FAIR", "Fair"⟩, false⟩], ⟨20737, 10⟩⟩
        (updateStateAfterCheck ⟨20737, 10⟩ ⟨"", []⟩
          [⟨⟨"belmar", "Belmar (16th Ave)", "16th-ave-belmar", "u"⟩,
            [⟨⟨20729, 0⟩, ⟨2, 4, "ok"⟩, ⟨"FAIR", "Fair"⟩, false⟩], ⟨20737, 10⟩⟩]) ≠
      none := by
  decide

/-- C3 amended: `filterNewAlerts` keeps exactly the forecast days whose
key `spotId:isoDate` is absent from `state.alertsSent` (order
preserved) and returns null when none remains; and after
`updateStateAfterCheck state [alert]` the second `filterNewAlerts`
returns null PROVIDED no recorded key of the alert has a date component
lexically older than the 7-day cutoff (such stale records are pruned by
the same call and become eligible again). -/
theorem claim3_dedup_amended (alert : Alert) (state : AlertState) :
    (filterNewAlerts alert state = none ↔
      ∀ f ∈ alert.forecasts,
        getAlertKey alert.spot.id f.date ∈ state.alertsSent.map Prod.fst) ∧
    (∀ a', filterNewAlerts alert state = some a' →
      a'.spot = alert.spot ∧ a'.generatedAt = alert.generatedAt ∧
        a'.forecasts = alert.forecasts.filter (fun f =>
          !(decide (getAlertKey alert.spot.id f.date ∈ state.alertsSent.map Prod.fst)))) ∧
    (∀ now : Date,
      (∀ f ∈ alert.forecasts, ∀ d,
          keyDatePart (getAlertKey alert.spot.id f.date) = some d →
          jsStrLt d (isoDate (now.day - 7)) = false) →
      filterNewAlerts alert (updateStateAfterCheck now state [alert]) = none) := by
  have hpred : ∀ (st : AlertState) (f : DayForecast),
      (!(wasAlertSent st alert.spot.id f.date)) =
        !(decide (getAlertKey alert.spot.id f.date ∈ st.alertsSent.map Prod.fst)) := by
    intro st f
    congr 1
    rcases hb : wasAlertSent st alert.spot.id f.date with _ | _
    · symm
      rw [decide_eq_false_iff_not]
      intro hm
      have hcontra := (wasAlertSent_mem_keys st alert.spot.id f.date).mpr hm
      rw [hb] at hcontra
      exact absurd hcontra (by simp)
    · symm
      rw [decide_eq_true_iff]
      exact (wasAlertSent_mem_keys st alert.spot.id f.date).mp hb
  refine ⟨?_, ?_, ?_⟩
  · simp only [filterNewAlerts]
    split_ifs with hlen
    · rw [List.length_eq_zero, List.filter_eq_nil_iff] at hlen
      simp only [true_iff, eq_self_iff_true]
      intro f hf
      have hb := hlen f hf
      simp only [Bool.not_eq_true, Bool.not_eq_false'] at hb
      exact (wasAlertSent_mem_keys state alert.spot.id f.date).mp hb
    · simp only [reduceCtorEq, false_iff]
      intro hall
      apply hlen
      rw [List.length_eq_zero, List.filter_eq_nil_iff]
      intro f hf
      simp [(wasAlertSent_mem_keys state alert.spot.id f.date).mpr (hall f hf)]
  · intro a' ha'
    simp only [filterNewAlerts] at ha'
    split_ifs at ha' with hlen
    all_goals first
      | exact Option.noConfusion ha'
      | · have ha2 := Option.some.inj ha'
          subst ha2
          exact ⟨rfl, rfl, List.filter_congr (fun f _ => hpred state f)⟩
  · intro now hfresh
    simp only [filterNewAlerts]
    have hnil : (alert.forecasts.filter
        (fun f => !(wasAlertSent (updateStateAfterCheck now state [alert])
          alert.spot.id f.date))) = [] := by
      rw [List.filter_eq_nil_iff]
      intro f hf
      have hkey : getAlertKey alert.spot.id f.date ∈
          (updateStateAfterCheck now state [alert]).alertsSent.map Prod.fst := by
        simp only [updateStateAfterCheck, List.foldl_cons, List.foldl_nil]
        rw [mem_keys_cleanup]
        exact ⟨key_mem_keys_foldl_mark _ _ _ _ f hf, hfresh f hf⟩
      have hw := (wasAlertSent_mem_keys _ alert.spot.id f.date).mpr hkey
      simp [hw]
    rw [hnil]
    simp

/-- C3 amended witness: a fresh alert (2 days out) recorded by
`updateStateAfterCheck` is null on a second `filterNewAlerts`. -/
theorem claim3_dedup_amended_witness :
    filterNewAlerts
        ⟨⟨"belmar", "Belmar (16th Ave)", "16th-ave-belmar", "u"⟩,
          [⟨⟨20739, 0⟩, ⟨2, 4, "ok"⟩, ⟨"FAIR", "Fair"⟩, false⟩], ⟨20737, 10⟩⟩
        (updateStateAfterCheck ⟨20737, 10⟩ ⟨"", []⟩
          [⟨⟨"belmar", "Belmar (16th Ave)", "16th-ave-belmar", "u"⟩,
            [⟨⟨20739, 0⟩, ⟨2, 4, "ok"⟩, ⟨"FAIR", "Fair"⟩, false⟩], ⟨20737, 10⟩⟩]) =
      none := by
  apply (claim3_dedup_amended _ _).2.2 ⟨20737, 10⟩
  intro f hf d hd
  rcases List.mem_singleton.mp hf with rfl
  have hk : some ("2026-10-13") = some d := by
    rw [← hd]
    decide
  injection hk with hk2
  subst hk2
  decide

/-- C9: `cleanupOldAlerts` keeps exactly the records whose key's
ISO-date component is not lexically older than the date 7 days before
now (the comparison is on the date substring of the key, never on the
recorded timestamp value `ts`); concretely, at now = 2026-10-11 a record
dated 8 days before now is removed while one dated 6 days before now is
kept. -/
theorem claim9_cleanup_lexical :
    (∀ (now : Date) (state : AlertState) (key ts : String),
        (key, ts) ∈ (cleanupOldAlerts now state).alertsSent ↔
          ((key, ts) ∈ state.alertsSent ∧
            ∀ d, keyDatePart key = some d → jsStrLt d (isoDate (now.day - 7)) = false)) ∧
    (cleanupOldAlerts ⟨20737, 10⟩
        ⟨"", [("belmar:" ++ isoDate ((20737 : Int) - 8), "t1"),
              ("belmar:" ++ isoDate ((20737 : Int) - 6), "t2")]⟩).alertsSent =
      [("belmar:" ++ isoDate ((20737 : Int) - 6), "t2")] := by
  refine ⟨?_, by decide⟩
  intro now state key ts
  exact mem_cleanup_iff now state (key, ts)

/-- C9 witness: a record dated 2 days before now survives cleanup. -/
theorem claim9_cleanup_lexical_witness :
    ("belmar:2026-10-09", "t") ∈
      (cleanupOldAlerts ⟨20737, 10⟩ ⟨"", [("belmar:2026-10-09", "t")]⟩).alertsSent := by
  apply (claim9_cleanup_lexical.1 ⟨20737, 10⟩ ⟨"", [("belmar:2026-10-09", "t")]⟩
    ("belmar:2026-10-09") ("t")).mpr
  refine ⟨by decide, ?_⟩
  intro d hd
  have hk : some ("2026-10-09") = some d := by
    rw [← hd]
    decide
  injection hk with hk2
  subst hk2
  decide

/-- C10: after any `updateStateAfterCheck`, every key remaining in
`alertsSent` has an ISO-date component not lexically older than the
date 7 days before now -- the bounded-retention invariant is
re-established on every commit, including for records added by the same
call. -/
theorem claim10_retention_invariant (now : Date) (state : AlertState)
    (sentAlerts : List Alert) (key ts : String)
    (hmem : (key, ts) ∈ (updateStateAfterCheck now state sentAlerts).alertsSent)
    (d : String) (hd : keyDatePart key = some d) :
    jsStrLt d (isoDate (now.day - 7)) = false := by
  simp only [updateStateAfterCheck] at hmem
  exact ((mem_cleanup_iff now _ _).mp hmem).2 d hd

/-- C10 witness: the record committed for a forecast 2 days out carries
a date component at or after the cutoff. -/
theorem claim10_retention_invariant_witness :
    jsStrLt ("2026-10-09") (isoDate ((20737 : Int) - 7)) = false :=
  claim10_retention_invariant ⟨20737, 10⟩ ⟨"", []⟩
    [⟨⟨"belmar", "Belmar (16th Ave)", "16th-ave-belmar", "u"⟩,
      [⟨⟨20735, 0⟩, ⟨2, 4, "ok"⟩, ⟨"FAIR", "Fair"⟩, false⟩], ⟨20737, 10⟩⟩]
    ("belmar:2026-10-09") (isoTimestamp ⟨20737, 10⟩) (by decide) ("2026-10-09") (by decide)
